import Mathlib

/-!
Shallow embedding of the zsh-llm-debugger run-orchestration and tool-dispatch
core (src/llm_debugger.py and src/ollama_debugger.py), with theorems checking
the natural-language specification's claims against it.

External effects are modelled by oracles: `Exec` stands for
`execute_shell_command` (a child-process spawn), and the dispatcher carries a
trace of the commands it spawned so that "no process is spawned" is a statement
about that trace.  The uncaught `json.loads` of the raw tool-call arguments
string in `handle_function_call` is modelled by the `Except` layer: a malformed
arguments string is an `Except.error` input, and the dispatcher propagates it.
-/

/-! ## Python `shlex.quote` (used by llm_debugger.py via `shlex.quote`) -/

/-- Characters Python's `shlex._find_unsafe` regex (ASCII) treats as safe:
word characters plus at-sign, percent, plus, equals, colon, comma, dot, slash
and hyphen. -/
def shlexSafeChar (c : Char) : Bool :=
  c.isAlpha || c.isDigit || c = '_' || c = '@' || c = '%' || c = '+' || c = '='
    || c = ':' || c = ',' || c = '.' || c = '/' || c = '-'

/-- The apostrophe character. -/
def apos : Char := Char.ofNat 39

/-- Python `shlex.quote`: the empty string becomes two apostrophes; a string of
safe characters is returned unchanged; otherwise the string is wrapped in
single quotes with every embedded apostrophe replaced by the five-character
escape (close quote, double-quoted apostrophe, reopen quote). -/
def shlexQuote (s : String) : String :=
  if s = "" then String.mk [apos, apos]
  else if s.data.all shlexSafeChar then s
  else String.mk
    ([apos] ++ s.data.flatMap
        (fun c => if c = apos then [apos, '"', apos, '"', apos] else [c])
      ++ [apos])

/-! ## Capability registry (llm_debugger.py `ALLOWED_FUNCTIONS`) -/

/-- JSON-schema `items` object of an array-typed parameter. -/
structure ItemsSchema where
  type : String
  enum : List String
deriving DecidableEq

/-- JSON-schema object for one parameter. -/
structure PropertySchema where
  type : String
  description : String
  items : Option ItemsSchema := none
deriving DecidableEq

/-- JSON-schema `parameters` object of one function descriptor. -/
structure ParametersSchema where
  type : String
  properties : List (String × PropertySchema)
  required : List String := []
deriving DecidableEq

/-- One capability descriptor: name, description and parameter schema. -/
structure FunctionSchema where
  name : String
  description : String
  parameters : ParametersSchema
deriving DecidableEq

/-- `ALLOWED_FUNCTIONS` of llm_debugger.py: the allow-list mapping each tool
name to its descriptor, transcribed literally. -/
def ALLOWED_FUNCTIONS : List (String × FunctionSchema) :=
  [("list_directory",
    { name := "list_directory"
      description := "List files and directories in a specified path."
      parameters :=
        { type := "object"
          properties :=
            [("path",
              { type := "string"
                description := "The directory path to list." }),
             ("options",
              { type := "array"
                description := "Options to modify the behavior of the ls command."
                items := some { type := "string", enum := ["-la", "--help"] } })]
          required := ["path"] } }),
   ("print_working_directory",
    { name := "print_working_directory"
      description := "Print the current working directory."
      parameters := { type := "object", properties := [] } }),
   ("list_processes",
    { name := "list_processes"
      description := "List currently running processes."
      parameters :=
        { type := "object"
          properties :=
            [("options",
              { type := "array"
                description := "Options to modify the behavior of the ps command."
                items := some { type := "string", enum := ["aux", "--help"] } })] } }),
   ("display_file_contents",
    { name := "display_file_contents"
      description := "Display the contents of a specified file."
      parameters :=
        { type := "object"
          properties :=
            [("file_path",
              { type := "string"
                description := "The path to the file to display." })]
          required := ["file_path"] } })]

/-- The keys of `ALLOWED_FUNCTIONS`: the names the dispatcher accepts. -/
def allowedFunctionNames : List String := ALLOWED_FUNCTIONS.map Prod.fst

/-! ## Tool dispatcher (llm_debugger.py `handle_function_call`) -/

/-- Result of `handle_function_call`: either the error dictionary
`{"error": msg}` or the `{"stdout", "stderr", "exit_status"}` dictionary. -/
inductive DispatchResult where
  | error (msg : String)
  | ok (stdout stderr : String) (exit_status : Int)
deriving DecidableEq

/-- Oracle for `execute_shell_command`: a shell command string to the captured
(stdout, stderr, returncode) triple.  The Python function catches every
exception and returns a triple, so totality is faithful. -/
def Exec : Type := String → String × String × Int

/-- The parsed tool-call arguments dictionary (outcome of `json.loads`),
restricted to the keys the dispatcher reads. -/
structure Arguments where
  path : Option String := none
  options : Option (List String) := none
  file_path : Option String := none
deriving DecidableEq

/-- llm_debugger.py `handle_function_call`, given the parse outcome of the raw
arguments string (`json.loads`, whose failure is uncaught in the source and so
propagates through the `Except` layer).  Returns the result dictionary together
with the trace of commands passed to `execute_shell_command`. -/
def handle_function_call (ex : Exec) (name : String)
    (argumentsJson : Except String Arguments) :
    Except String (DispatchResult × List String) := do
  let arguments ← argumentsJson
  if ¬ allowedFunctionNames.contains name then
    pure (.error ("Function '" ++ name ++ "' is not allowed."), [])
  else if name = "list_directory" then
    let path := arguments.path.getD "."
    let options := String.intercalate " " (arguments.options.getD [])
    let command := "ls " ++ options ++ " " ++ shlexQuote path
    let (stdout, stderr, exit_status) := ex command
    pure (.ok stdout stderr exit_status, [command])
  else if name = "print_working_directory" then
    let command := "pwd"
    let (stdout, stderr, exit_status) := ex command
    pure (.ok stdout stderr exit_status, [command])
  else if name = "list_processes" then
    let options := String.intercalate " " (arguments.options.getD [])
    let command := "ps " ++ options
    let (stdout, stderr, exit_status) := ex command
    pure (.ok stdout stderr exit_status, [command])
  else if name = "display_file_contents" then
    match arguments.file_path with
    | none => pure (.error "Missing 'file_path' argument.", [])
    | some fp =>
      if fp = "" then
        pure (.error "Missing 'file_path' argument.", [])
      else
        let command := "cat " ++ shlexQuote fp
        let (stdout, stderr, exit_status) := ex command
        pure (.ok stdout stderr exit_status, [command])
  else
    pure (.error ("Function '" ++ name ++ "' is not implemented."), [])

/-- Spec-side variant of the dispatcher, following the spec's words that every
argument value is "individually shell-escaped/quoted before being embedded into
a command line — never interpolated raw": identical to `handle_function_call`
except that each `options` value is also passed through `shlexQuote` before the
join.  Used only to compare the source construction with the spec's claim. -/
def handle_function_call_specQuoted (ex : Exec) (name : String)
    (argumentsJson : Except String Arguments) :
    Except String (DispatchResult × List String) := do
  let arguments ← argumentsJson
  if ¬ allowedFunctionNames.contains name then
    pure (.error ("Function '" ++ name ++ "' is not allowed."), [])
  else if name = "list_directory" then
    let path := arguments.path.getD "."
    let options := String.intercalate " " ((arguments.options.getD []).map shlexQuote)
    let command := "ls " ++ options ++ " " ++ shlexQuote path
    let (stdout, stderr, exit_status) := ex command
    pure (.ok stdout stderr exit_status, [command])
  else if name = "print_working_directory" then
    let command := "pwd"
    let (stdout, stderr, exit_status) := ex command
    pure (.ok stdout stderr exit_status, [command])
  else if name = "list_processes" then
    let options := String.intercalate " " ((arguments.options.getD []).map shlexQuote)
    let command := "ps " ++ options
    let (stdout, stderr, exit_status) := ex command
    pure (.ok stdout stderr exit_status, [command])
  else if name = "display_file_contents" then
    match arguments.file_path with
    | none => pure (.error "Missing 'file_path' argument.", [])
    | some fp =>
      if fp = "" then
        pure (.error "Missing 'file_path' argument.", [])
      else
        let command := "cat " ++ shlexQuote fp
        let (stdout, stderr, exit_status) := ex command
        pure (.ok stdout stderr exit_status, [command])
  else
    pure (.error ("Function '" ++ name ++ "' is not implemented."), [])

/-- The option values advertised by the registry's enums (`-la`, `--help` for
`ls`; `aux`, `--help` for `ps`). -/
def advertisedOptionValues : List String := ["-la", "--help", "aux"]

/-- Whether the dispatcher returned a result dictionary (rather than letting
the argument-parse failure escape). -/
def returnsResult (e : Except String (DispatchResult × List String)) : Bool :=
  match e with
  | .ok _ => true
  | .error _ => false

/-! ## Stream sink (llm_debugger.py `StreamingEventHandler`) -/

/-- A frame written to the named pipe by one call site: a verbatim text chunk
(the `on_text_delta` write) or the terminal sentinel (the
`handle_final_message` write of the EOF line). -/
inductive Frame where
  | chunk (text : String)
  | sentinel
deriving DecidableEq

/-- The bytes a frame puts on the pipe: chunks verbatim, the sentinel as the
newline-framed EOF line. -/
def Frame.written : Frame → String
  | .chunk s => s
  | .sentinel => "\nEOF\n"

/-- The engine-stream callbacks one `StreamingEventHandler` instance receives
over its lifetime. -/
inductive StreamEvent where
  | textCreated (value : String)
  | textDelta (value : String)
  | messageCompleted
  | general
deriving DecidableEq

/-- The observable state of one `StreamingEventHandler`: the `suggestion`
accumulator and the frames written to the FIFO, in order. -/
structure SinkState where
  suggestion : String := ""
  frames : List Frame := []
deriving DecidableEq

/-- One callback of `StreamingEventHandler`: `on_text_created` appends
`text.value` to the accumulator without writing to the FIFO; `on_text_delta`
appends `delta.value` and writes it as a chunk; `handle_final_message` (the
`thread.message.completed` branch of `on_event`) writes the sentinel; every
other event writes nothing. -/
def sinkStep (st : SinkState) : StreamEvent → SinkState
  | .textCreated v => { st with suggestion := st.suggestion ++ v }
  | .textDelta v =>
      { suggestion := st.suggestion ++ v, frames := st.frames ++ [Frame.chunk v] }
  | .messageCompleted => { st with frames := st.frames ++ [Frame.sentinel] }
  | .general => st

/-- A handler's lifetime: the fresh state (`suggestion = ""`, FIFO opened)
folded over the received callbacks.  The destructor `__del__` only closes the
FIFO — releasing the channel writes no frame — so the final state is exactly
this fold. -/
def processEvents (evs : List StreamEvent) : SinkState :=
  evs.foldl sinkStep {}

/-- Number of sentinel frames among the writes. -/
def sentinelCount (fs : List Frame) : Nat := fs.count Frame.sentinel

/-- Concatenation of the chunk texts written before the first sentinel. -/
def chunksBeforeSentinel : List Frame → String
  | [] => ""
  | Frame.sentinel :: _ => ""
  | Frame.chunk s :: rest => s ++ chunksBeforeSentinel rest

/-! ## Run controller batch handling (llm_debugger.py `handle_requires_action`) -/

/-- The `function` payload of an engine-issued tool call: a name and the raw
arguments string, the latter represented by its `json.loads` outcome. -/
structure FunctionCall where
  name : String
  argumentsJson : Except String Arguments

/-- One engine-issued tool call of a `requires_action` batch: the opaque,
engine-assigned call id and the function payload. -/
structure ToolCall where
  id : String
  function : FunctionCall

/-- One submitted tool output: the originating call id and the output text. -/
structure ToolOutput where
  tool_call_id : String
  output : String
deriving DecidableEq

/-- The output text the controller builds from a dispatcher result:
`"Error: " ++ msg` when the result dictionary has the error key, otherwise the
combined stdout ++ stderr. -/
def toolOutputText : DispatchResult → String
  | .error msg => "Error: " ++ msg
  | .ok stdout stderr _ => stdout ++ stderr

/-- `EventHandler.handle_requires_action`: dispatch every tool call of the
batch in order, pair each output text with its call id, and submit the
collected list as one batch.  An uncaught dispatcher exception aborts the loop,
in which case nothing is submitted. -/
def handle_requires_action (ex : Exec) :
    List ToolCall → Except String (List ToolOutput)
  | [] => pure []
  | tool :: rest => do
    let (result, _) ←
      handle_function_call ex tool.function.name tool.function.argumentsJson
    let output : ToolOutput := { tool_call_id := tool.id
                                 output := toolOutputText result }
    let outs ← handle_requires_action ex rest
    pure (output :: outs)

/-! ## Main flow and exit status (llm_debugger.py `main` and the engine steps) -/

/-- Outcome of the engine-communication steps `main` takes after a failed
command: every step succeeded, or the first step that failed — assistant
creation, thread creation, or run initiation — each of which prints the error
and calls `sys.exit(1)` in the source. -/
inductive EngineOutcome where
  | ok
  | createAssistantFailed
  | createThreadFailed
  | initiateRunFailed
deriving DecidableEq

/-- The process exit status of `main`: fewer than two argv entries exits 1;
otherwise the reconstructed user command runs, its stdout/stderr are echoed,
and when its status is non-zero the assistant, thread and run are attempted —
an engine failure exiting 1 on the spot — before the final
`sys.exit(exit_status)` with the original command's status. -/
def mainExitStatus (argvTail : List String) (ex : Exec)
    (engine : EngineOutcome) : Int :=
  if argvTail.length < 1 then 1
  else
    let user_command := String.intercalate " " argvTail
    let exit_status := (ex user_command).2.2
    if exit_status ≠ 0 then
      match engine with
      | .ok => exit_status
      | .createAssistantFailed => 1
      | .createThreadFailed => 1
      | .initiateRunFailed => 1
    else exit_status

/-! ## Advertised tool catalogs (llm_debugger.py `create_assistant`,
ollama_debugger.py `ALLOWED_FUNCTIONS` / `AVAILABLE_FUNCTIONS`) -/

/-- One entry of the `tools` list passed to the assistant-creation call:
`{"type": "function", "function": {...}}`. -/
structure AssistantTool where
  type : String
  function : FunctionSchema
deriving DecidableEq

/-- The `tools` literal of `create_assistant` in llm_debugger.py, transcribed
literally (the source repeats the descriptors rather than referencing
`ALLOWED_FUNCTIONS`). -/
def createAssistantTools : List AssistantTool :=
  [{ type := "function"
     function :=
      { name := "list_directory"
        description := "List files and directories in a specified path."
        parameters :=
          { type := "object"
            properties :=
              [("path",
                { type := "string"
                  description := "The directory path to list." }),
               ("options",
                { type := "array"
                  description := "Options to modify the behavior of the ls command."
                  items := some { type := "string", enum := ["-la", "--help"] } })]
            required := ["path"] } } },
   { type := "function"
     function :=
      { name := "print_working_directory"
        description := "Print the current working directory."
        parameters := { type := "object", properties := [] } } },
   { type := "function"
     function :=
      { name := "list_processes"
        description := "List currently running processes."
        parameters :=
          { type := "object"
            properties :=
              [("options",
                { type := "array"
                  description := "Options to modify the behavior of the ps command."
                  items := some { type := "string", enum := ["aux", "--help"] } })] } } },
   { type := "function"
     function :=
      { name := "display_file_contents"
        description := "Display the contents of a specified file."
        parameters :=
          { type := "object"
            properties :=
              [("file_path",
                { type := "string"
                  description := "The path to the file to display." })]
            required := ["file_path"] } } }]

/-- ollama_debugger.py's own `ALLOWED_FUNCTIONS` literal, transcribed
literally from that file. -/
def ollamaALLOWED_FUNCTIONS : List (String × FunctionSchema) :=
  [("list_directory",
    { name := "list_directory"
      description := "List files and directories in a specified path."
      parameters :=
        { type := "object"
          properties :=
            [("path",
              { type := "string"
                description := "The directory path to list." }),
             ("options",
              { type := "array"
                description := "Options to modify the behavior of the ls command."
                items := some { type := "string", enum := ["-la", "--help"] } })]
          required := ["path"] } }),
   ("print_working_directory",
    { name := "print_working_directory"
      description := "Print the current working directory."
      parameters := { type := "object", properties := [] } }),
   ("list_processes",
    { name := "list_processes"
      description := "List currently running processes."
      parameters :=
        { type := "object"
          properties :=
            [("options",
              { type := "array"
                description := "Options to modify the behavior of the ps command."
                items := some { type := "string", enum := ["aux", "--help"] } })] } }),
   ("display_file_contents",
    { name := "display_file_contents"
      description := "Display the contents of a specified file."
      parameters :=
        { type := "object"
          properties :=
            [("file_path",
              { type := "string"
                description := "The path to the file to display." })]
          required := ["file_path"] } })]

/-- `tools=list(ALLOWED_FUNCTIONS.values())` in ollama_debugger.py's first
chat call: the advertised catalog is the registry's values themselves. -/
def ollamaAdvertisedTools : List FunctionSchema :=
  ollamaALLOWED_FUNCTIONS.map Prod.snd

/-- The keys of ollama_debugger.py's `AVAILABLE_FUNCTIONS` dictionary, the set
its dispatch loop checks membership against. -/
def ollamaAvailableFunctionNames : List String :=
  ["list_directory", "print_working_directory", "list_processes",
   "display_file_contents"]

/-! ## Poll/two-call variant tool loop (ollama_debugger.py `run`) -/

/-- The nested `function` object of one ollama tool call: name and the parsed
arguments dictionary (ollama delivers arguments already as a mapping). -/
structure OllamaFunctionCall where
  name : String
  arguments : Arguments

/-- One tool call of the ollama response: only the `function` payload — the
protocol carries no call id. -/
structure OllamaToolCall where
  function : OllamaFunctionCall

/-- Oracles for the four local Python tool functions of ollama_debugger.py.
Each of those functions catches its own exceptions and returns a string, so a
total function models each faithfully. -/
structure ToolOracle where
  list_directory : String → List String → String
  print_working_directory : String
  list_processes : List String → String
  display_file_contents : String → String

/-- One conversation-history message as appended by the tool loop.  The
`tool_call_id` field records whether a call-id key is present in the dictionary
— the loop appends `{'role': 'tool', 'content': ...}` with no such key. -/
structure OllamaMessage where
  role : String
  content : String
  tool_call_id : Option String := none
deriving DecidableEq

/-- The `function_response` computed for one tool call in ollama `run`'s
processing loop: names in `AVAILABLE_FUNCTIONS` dispatch with per-name argument
extraction (a missing required key raises `KeyError`, caught by the loop's
try/except into the `Error executing function` string with Python's
`str(KeyError)` rendering); any other name gets the not-allowed message. -/
def ollama_function_response (oracle : ToolOracle) (tool : OllamaToolCall) : String :=
  let function_name := tool.function.name
  let function_args := tool.function.arguments
  if ollamaAvailableFunctionNames.contains function_name then
    if function_name = "list_directory" then
      match function_args.path with
      | none => "Error executing function 'list_directory': 'path'"
      | some p => oracle.list_directory p (function_args.options.getD [])
    else if function_name = "print_working_directory" then
      oracle.print_working_directory
    else if function_name = "list_processes" then
      oracle.list_processes (function_args.options.getD [])
    else if function_name = "display_file_contents" then
      match function_args.file_path with
      | none => "Error executing function 'display_file_contents': 'file_path'"
      | some fp => oracle.display_file_contents fp
    else
      "Function '" ++ function_name ++ "' is not implemented."
  else
    "Function '" ++ function_name ++ "' is not allowed."

/-- The conversation-history effect of ollama `run`'s tool-call loop: for every
tool call of the response — allowed, not implemented and disallowed alike — one
message with role `tool` carrying only the response text is appended to the
history. -/
def ollama_process_tool_calls (oracle : ToolOracle)
    (messages : List OllamaMessage) (tool_calls : List OllamaToolCall) :
    List OllamaMessage :=
  tool_calls.foldl
    (fun ms tool =>
      ms ++ [{ role := "tool", content := ollama_function_response oracle tool }])
    messages

/-! ## Theorems -/

theorem handle_function_call_ok_total (ex : Exec) (name : String) (a : Arguments) :
    ∃ r, handle_function_call ex name (Except.ok a) = Except.ok r := by
  unfold handle_function_call
  simp only [bind, Except.bind]
  repeat' split
  all_goals exact ⟨_, rfl⟩

/-- C1: a tool-call request whose name is not a key of the allow-list registry
gets `{"error": "Function '<name>' is not allowed."}` — the error result with
exactly that output — and the spawn trace is empty: validation precedes any
execution. -/
theorem claim_C1_disallowed_rejected_without_spawn
    (ex : Exec) (name : String) (a : Arguments)
    (h : ¬ allowedFunctionNames.contains name) :
    handle_function_call ex name (Except.ok a)
      = Except.ok
          (DispatchResult.error ("Function '" ++ name ++ "' is not allowed."), []) := by
  unfold handle_function_call
  simp only [bind, Except.bind]
  rw [if_pos h]
  rfl

/-- Witness for C1 at the spec's Scenario B name `delete_all_files`. -/
theorem claim_C1_witness :
    handle_function_call (fun _ => ("", "", 0)) "delete_all_files" (Except.ok {})
      = Except.ok
          (DispatchResult.error "Function 'delete_all_files' is not allowed.", []) := by
  have e : ("Function '" ++ "delete_all_files" ++ "' is not allowed.")
      = "Function 'delete_all_files' is not allowed." := by decide
  rw [← e]
  exact claim_C1_disallowed_rejected_without_spawn (fun _ => ("", "", 0))
    "delete_all_files" {} (by decide)

/-- C2 fails on the code: an `options` value is joined into the command line
raw, not shell-quoted.  At `list_directory` with path `.` and the single option
value `; echo hi`, the source builds the command `ls ; echo hi .` — the
metacharacters reach the shell unquoted — while the spec's every-argument-quoted
construction would build `ls '; echo hi' .`, a different command line. -/
theorem claim_C2_counterexample :
    handle_function_call (fun _ => ("", "", 0)) "list_directory"
        (Except.ok { path := some ".", options := some ["; echo hi"] })
      = Except.ok (DispatchResult.ok "" "" 0, ["ls ; echo hi ."]) ∧
    handle_function_call_specQuoted (fun _ => ("", "", 0)) "list_directory"
        (Except.ok { path := some ".", options := some ["; echo hi"] })
      = Except.ok (DispatchResult.ok "" "" 0, ["ls '; echo hi' ."]) ∧
    ("ls ; echo hi ." : String) ≠ "ls '; echo hi' ." :=
  ⟨by rfl, by rfl, by decide⟩

theorem shlexQuote_advertised (o : String) (h : o ∈ advertisedOptionValues) :
    shlexQuote o = o := by
  fin_cases h <;> decide

theorem map_shlexQuote_advertised (l : List String)
    (h : ∀ o ∈ l, o ∈ advertisedOptionValues) : l.map shlexQuote = l := by
  induction l with
  | nil => rfl
  | cons o rest ih =>
    simp only [List.mem_cons, forall_eq_or_imp] at h
    simp [shlexQuote_advertised o h.1, ih h.2]

/-- C2 amended: `path` and `file_path` are always `shlex.quote`d, but `options`
values are embedded raw; the spec's every-argument-quoted construction agrees
with the source construction exactly when each option value is one of the
registry's advertised enum constants (`-la`, `--help`, `aux`), which are
shlex-safe and equal their own quoted form. -/
theorem claim_C2_amended (ex : Exec) (name : String) (a : Arguments)
    (h : ∀ o ∈ a.options.getD [], o ∈ advertisedOptionValues) :
    handle_function_call ex name (Except.ok a)
      = handle_function_call_specQuoted ex name (Except.ok a) := by
  have hmap : (a.options.getD []).map shlexQuote = a.options.getD [] :=
    map_shlexQuote_advertised _ h
  unfold handle_function_call handle_function_call_specQuoted
  simp only [bind, Except.bind]
  rw [hmap]

/-- Witness for the amended C2 at `list_directory` with option `-la`. -/
theorem claim_C2_amended_witness :
    handle_function_call (fun _ => ("", "", 0)) "list_directory"
        (Except.ok { path := some "/tmp", options := some ["-la"] })
      = handle_function_call_specQuoted (fun _ => ("", "", 0)) "list_directory"
        (Except.ok { path := some "/tmp", options := some ["-la"] }) :=
  claim_C2_amended (fun _ => ("", "", 0)) "list_directory"
    { path := some "/tmp", options := some ["-la"] } (by decide)

/-- C3 fails on the code for `list_directory`: a request with the required
`path` argument missing is not rejected — the source defaults the path to `.`
and spawns the listing (`ls  .` with the empty joined options), returning a
normal result rather than `is_error=true`. -/
theorem claim_C3_counterexample :
    handle_function_call (fun _ => ("", "", 0)) "list_directory" (Except.ok {})
      = Except.ok (DispatchResult.ok "" "" 0, ["ls  ."]) ∧
    (["ls  ."] : List String) ≠ [] :=
  ⟨by rfl, by decide⟩

/-- C3 amended: only `display_file_contents` enforces its required argument — a
missing (or empty) `file_path` yields `is_error=true` with the message
`Missing 'file_path' argument.` and no spawned process; a missing `path` for
`list_directory` is silently defaulted to `.` and the command executes. -/
theorem claim_C3_amended (ex : Exec) (a : Arguments)
    (h : a.file_path = none ∨ a.file_path = some "") :
    handle_function_call ex "display_file_contents" (Except.ok a)
      = Except.ok (DispatchResult.error "Missing 'file_path' argument.", []) := by
  unfold handle_function_call
  simp only [bind, Except.bind]
  rcases h with h | h <;> rw [h] <;> rfl

/-- Witness for the amended C3: `display_file_contents` with no arguments. -/
theorem claim_C3_amended_witness :
    handle_function_call (fun _ => ("", "", 0)) "display_file_contents"
        (Except.ok {})
      = Except.ok (DispatchResult.error "Missing 'file_path' argument.", []) :=
  claim_C3_amended (fun _ => ("", "", 0)) {} (Or.inl rfl)

/-- C6 fails on the code: `handle_function_call` calls `json.loads` on the raw
arguments string outside any try block, so a request whose arguments string is
malformed JSON raises across the dispatcher boundary instead of returning a
result — here the decode error propagates unchanged. -/
theorem claim_C6_counterexample :
    handle_function_call (fun _ => ("", "", 0)) "list_directory"
        (Except.error "Expecting value: line 1 column 1 (char 0)")
      = Except.error "Expecting value: line 1 column 1 (char 0)" ∧
    returnsResult (handle_function_call (fun _ => ("", "", 0)) "list_directory"
        (Except.error "Expecting value: line 1 column 1 (char 0)")) = false :=
  ⟨rfl, rfl⟩

/-- C6 amended: once the arguments string has parsed, the dispatcher always
returns a result for every name and every executor outcome — execution
failures (spawn failure, non-zero exit) arrive as the executor's captured
(stdout, stderr, status) triple inside the result, never as an exception; only
a malformed arguments string escapes as a raised decode error. -/
theorem claim_C6_amended (ex : Exec) (name : String) (a : Arguments) :
    returnsResult (handle_function_call ex name (Except.ok a)) = true := by
  obtain ⟨r, hr⟩ := handle_function_call_ok_total ex name a
  rw [hr]
  rfl

theorem str_append_empty (s : String) : s ++ "" = s := by
  apply String.ext
  simp [String.data_append]

theorem foldl_sinkStep_sentinelCount (evs : List StreamEvent) :
    ∀ st : SinkState,
      sentinelCount (List.foldl sinkStep st evs).frames
        = sentinelCount st.frames + evs.count StreamEvent.messageCompleted := by
  induction evs with
  | nil => intro st; simp
  | cons e rest ih =>
    intro st
    rw [List.foldl_cons, ih]
    cases e with
    | textCreated v => simp [sinkStep, sentinelCount, List.count_cons]
    | textDelta v =>
      simp [sinkStep, sentinelCount, List.count_append, List.count_cons]
    | messageCompleted =>
      simp [sinkStep, sentinelCount, List.count_append, List.count_cons]
      omega
    | general => simp [sinkStep, sentinelCount, List.count_cons]

theorem chunksBeforeSentinel_append_sentinel (fs : List Frame)
    (h : Frame.sentinel ∉ fs) :
    chunksBeforeSentinel (fs ++ [Frame.sentinel]) = chunksBeforeSentinel fs := by
  induction fs with
  | nil => rfl
  | cons f rest ih =>
    simp only [List.mem_cons, not_or] at h
    cases f with
    | chunk s => simp [chunksBeforeSentinel, ih h.2]
    | sentinel => exact absurd rfl h.1

theorem chunksBeforeSentinel_append_chunk (fs : List Frame) (v : String)
    (h : Frame.sentinel ∉ fs) :
    chunksBeforeSentinel (fs ++ [Frame.chunk v])
      = chunksBeforeSentinel fs ++ v := by
  induction fs with
  | nil => simp [chunksBeforeSentinel, str_append_empty]
  | cons f rest ih =>
    simp only [List.mem_cons, not_or] at h
    cases f with
    | chunk s =>
      show s ++ chunksBeforeSentinel (rest ++ [Frame.chunk v])
        = (s ++ chunksBeforeSentinel rest) ++ v
      rw [ih h.2, String.append_assoc]
    | sentinel => exact absurd rfl h.1

/-- Invariant of a handler that has seen no completed-message event and only
empty created-text callbacks: no sentinel written yet, and the chunks written
so far concatenate to the suggestion accumulator. -/
theorem sink_invariant (pre : List StreamEvent)
    (hc : ∀ v, StreamEvent.textCreated v ∈ pre → v = "")
    (hnc : StreamEvent.messageCompleted ∉ pre) :
    ∀ st : SinkState, Frame.sentinel ∉ st.frames →
      chunksBeforeSentinel st.frames = st.suggestion →
      Frame.sentinel ∉ (List.foldl sinkStep st pre).frames ∧
        chunksBeforeSentinel (List.foldl sinkStep st pre).frames
          = (List.foldl sinkStep st pre).suggestion := by
  induction pre with
  | nil => intro st h1 h2; exact ⟨h1, h2⟩
  | cons e rest ih =>
    intro st h1 h2
    have hc' : ∀ v, StreamEvent.textCreated v ∈ rest → v = "" :=
      fun v hv => hc v (List.mem_cons_of_mem _ hv)
    have hnc' : StreamEvent.messageCompleted ∉ rest :=
      fun hv => hnc (List.mem_cons_of_mem _ hv)
    cases e with
    | textCreated v =>
      have hv : v = "" := hc v (List.mem_cons_self _ _)
      subst hv
      exact ih hc' hnc' _ h1 (by simpa [sinkStep, str_append_empty] using h2)
    | textDelta v =>
      refine ih hc' hnc' _ ?_ ?_
      · simp only [sinkStep]
        intro hmem
        rcases List.mem_append.mp hmem with hmem | hmem
        · exact h1 hmem
        · simp at hmem
      · simp only [sinkStep]
        rw [chunksBeforeSentinel_append_chunk _ _ h1, h2]
    | messageCompleted => exact absurd (List.mem_cons_self _ _) hnc
    | general => exact ih hc' hnc' _ h1 h2

/-- C4 fails on the code: the sentinel is written only by
`handle_final_message`, and `__del__` releases the FIFO without writing it, so
a handler torn down without a completed-message event — a failed, cancelled or
errored run — emits no sentinel at all: here a run that produced one text delta
and then ended writes one chunk and zero sentinels. -/
theorem claim_C4_counterexample :
    (processEvents [StreamEvent.textDelta "x"]).frames = [Frame.chunk "x"] ∧
    sentinelCount (processEvents [StreamEvent.textDelta "x"]).frames = 0 ∧
    (0 : Nat) ≠ 1 :=
  ⟨rfl, rfl, by decide⟩

/-- C4 amended: the sink emits one sentinel per completed-message event — so
exactly one for a run delivering exactly one such event, and it is the last
frame whenever that event arrives last — but nothing guarantees a sentinel on
other exit paths: a handler destroyed without a completed-message event (error
paths, `__del__`) emits none. -/
theorem claim_C4_amended (evs : List StreamEvent) :
    sentinelCount (processEvents evs).frames
      = evs.count StreamEvent.messageCompleted ∧
    (evs.getLast? = some StreamEvent.messageCompleted →
      (processEvents evs).frames.getLast? = some Frame.sentinel) := by
  constructor
  · simpa [processEvents, sentinelCount] using foldl_sinkStep_sentinelCount evs {}
  · intro hlast
    have hdecomp : evs.dropLast ++ [StreamEvent.messageCompleted] = evs :=
      List.dropLast_append_getLast? StreamEvent.messageCompleted
        (Option.mem_def.mpr hlast)
    rw [processEvents, ← hdecomp, List.foldl_append]
    simp [sinkStep]

/-- Witness for the amended C4: one delta then the completed message. -/
theorem claim_C4_witness :
    sentinelCount
        (processEvents [StreamEvent.textDelta "a", StreamEvent.messageCompleted]).frames
      = List.count StreamEvent.messageCompleted
          [StreamEvent.textDelta "a", StreamEvent.messageCompleted] ∧
    (processEvents [StreamEvent.textDelta "a", StreamEvent.messageCompleted]).frames.getLast?
      = some Frame.sentinel :=
  ⟨(claim_C4_amended _).1, (claim_C4_amended _).2 (by decide)⟩

/-- C8 fails on the code: `on_text_created` adds `text.value` to the
suggestion accumulator without writing it to the FIFO, so a run whose created
text is non-empty accumulates more than it streams — here the accumulator ends
as `x` while the chunks written before the sentinel concatenate to the empty
string. -/
theorem claim_C8_counterexample :
    (processEvents [StreamEvent.textCreated "x", StreamEvent.messageCompleted]).suggestion
      = "x" ∧
    chunksBeforeSentinel
        (processEvents [StreamEvent.textCreated "x", StreamEvent.messageCompleted]).frames
      = "" ∧
    ("x" : String) ≠ "" :=
  ⟨rfl, rfl, by decide⟩

/-- C8 amended: for a run whose created-text callbacks all carry empty text
(the accumulator grows only through deltas) and whose completed-message event
arrives last, the chunks written before the sentinel concatenate exactly to the
final suggestion accumulator. -/
theorem claim_C8_amended (pre : List StreamEvent)
    (hc : ∀ v, StreamEvent.textCreated v ∈ pre → v = "")
    (hnc : StreamEvent.messageCompleted ∉ pre) :
    chunksBeforeSentinel
        (processEvents (pre ++ [StreamEvent.messageCompleted])).frames
      = (processEvents (pre ++ [StreamEvent.messageCompleted])).suggestion := by
  rw [processEvents, List.foldl_append]
  obtain ⟨h1, h2⟩ := sink_invariant pre hc hnc {} (by simp) rfl
  simp only [List.foldl_cons, List.foldl_nil, sinkStep]
  rw [chunksBeforeSentinel_append_sentinel _ h1, h2]

/-- Witness for the amended C8: one delta, then the completed message. -/
theorem claim_C8_witness :
    chunksBeforeSentinel
        (processEvents ([StreamEvent.textDelta "cd /tmp"]
          ++ [StreamEvent.messageCompleted])).frames
      = (processEvents ([StreamEvent.textDelta "cd /tmp"]
          ++ [StreamEvent.messageCompleted])).suggestion :=
  claim_C8_amended [StreamEvent.textDelta "cd /tmp"]
    (by intro v hv; simp at hv) (by decide)

/-- C5: whenever the controller reaches submission — `handle_requires_action`
produced an output list for the batch — the number of submitted outputs equals
the number of requests, and position by position each output's `tool_call_id`
is the id of the corresponding request, so with engine-unique call ids the
pairing is a bijection; the single submitted list means every request has its
result before submission is attempted. -/
theorem claim_C5_batch_complete_and_id_matched (ex : Exec)
    (tool_calls : List ToolCall) (outputs : List ToolOutput)
    (hsubmit : handle_requires_action ex tool_calls = Except.ok outputs) :
    outputs.length = tool_calls.length ∧
    outputs.map ToolOutput.tool_call_id = tool_calls.map ToolCall.id := by
  have key : ∀ (calls : List ToolCall) (outs : List ToolOutput),
      handle_requires_action ex calls = Except.ok outs →
      outs.map ToolOutput.tool_call_id = calls.map ToolCall.id := by
    intro calls
    induction calls with
    | nil =>
      intro outs h
      simp only [handle_requires_action] at h
      cases h
      rfl
    | cons t rest ih =>
      intro outs h
      simp only [handle_requires_action] at h
      rcases hhead :
          handle_function_call ex t.function.name t.function.argumentsJson with
        e | r
      · rw [hhead] at h
        simp [bind, Except.bind] at h
      · obtain ⟨result, trace⟩ := r
        rw [hhead] at h
        simp only [bind, Except.bind] at h
        rcases hrest : handle_requires_action ex rest with e' | outs'
        · rw [hrest] at h
          simp at h
        · rw [hrest] at h
          simp only [pure, Except.pure, Except.ok.injEq] at h
          subst h
          simp [List.map_cons, ih outs' hrest]
  have hmap := key tool_calls outputs hsubmit
  refine ⟨?_, hmap⟩
  have := congrArg List.length hmap
  simpa using this

/-- Witness for C5: the spec's Scenario C batch — `print_working_directory`
and `list_processes` in one `requires_action` event. -/
theorem claim_C5_witness :
    ([{ tool_call_id := "call_1", output := "" },
      { tool_call_id := "call_2", output := "" }] : List ToolOutput).length
      = ([⟨"call_1", ⟨"print_working_directory", Except.ok {}⟩⟩,
          ⟨"call_2", ⟨"list_processes", Except.ok {}⟩⟩] : List ToolCall).length ∧
    ([{ tool_call_id := "call_1", output := "" },
      { tool_call_id := "call_2", output := "" }] : List ToolOutput).map
        ToolOutput.tool_call_id
      = ([⟨"call_1", ⟨"print_working_directory", Except.ok {}⟩⟩,
          ⟨"call_2", ⟨"list_processes", Except.ok {}⟩⟩] : List ToolCall).map
        ToolCall.id :=
  claim_C5_batch_complete_and_id_matched (fun _ => ("", "", 0))
    [⟨"call_1", ⟨"print_working_directory", Except.ok {}⟩⟩,
     ⟨"call_2", ⟨"list_processes", Except.ok {}⟩⟩]
    [{ tool_call_id := "call_1", output := "" },
     { tool_call_id := "call_2", output := "" }] (by rfl)

/-- C7 fails on the code: an engine-communication failure calls `sys.exit(1)`
(in `initiate_run`, and likewise in assistant and thread creation), not
`sys.exit(exit_status)` — so a command that failed with status 2 followed by a
failed run initiation makes the process exit 1, not 2. -/
theorem claim_C7_counterexample :
    mainExitStatus ["somecmd"] (fun _ => ("", "", 2))
        EngineOutcome.initiateRunFailed = 1 ∧
    (1 : Int) ≠ 2 :=
  ⟨rfl, by decide⟩

/-- C7 amended: the process exits with the original command's status whenever
the engine steps all succeed (suggestion produced or not) or the command
succeeded in the first place; but on an aborting engine-communication failure
after a non-zero command status it exits with the constant 1, which coincides
with the original status only when that status is 1. -/
theorem claim_C7_amended (argvTail : List String) (ex : Exec)
    (engine : EngineOutcome) (hargs : argvTail ≠ []) :
    (engine = EngineOutcome.ok ∨ (ex (String.intercalate " " argvTail)).2.2 = 0 →
      mainExitStatus argvTail ex engine
        = (ex (String.intercalate " " argvTail)).2.2) ∧
    (engine ≠ EngineOutcome.ok ∧ (ex (String.intercalate " " argvTail)).2.2 ≠ 0 →
      mainExitStatus argvTail ex engine = 1) := by
  have hlen : ¬ argvTail.length < 1 := by
    cases argvTail with
    | nil => exact absurd rfl hargs
    | cons a l => simp
  constructor
  · rintro (h | h)
    · subst h
      simp only [mainExitStatus, if_neg hlen]
      split <;> rfl
    · simp only [mainExitStatus, if_neg hlen, h]
      simp
  · rintro ⟨hengine, hstatus⟩
    simp only [mainExitStatus, if_neg hlen, if_pos hstatus]
    cases engine with
    | ok => exact absurd rfl hengine
    | createAssistantFailed => rfl
    | createThreadFailed => rfl
    | initiateRunFailed => rfl

/-- Witness for the amended C7: a command failing with status 2 and an
untroubled engine run exits 2. -/
theorem claim_C7_witness :
    (EngineOutcome.ok = EngineOutcome.ok ∨
        ((fun (_ : String) => ("", "", (2 : Int))) (String.intercalate " " ["somecmd"])).2.2 = 0 →
      mainExitStatus ["somecmd"] (fun _ => ("", "", 2)) EngineOutcome.ok
        = ((fun (_ : String) => ("", "", (2 : Int))) (String.intercalate " " ["somecmd"])).2.2) ∧
    (EngineOutcome.ok ≠ EngineOutcome.ok ∧
        ((fun (_ : String) => ("", "", (2 : Int))) (String.intercalate " " ["somecmd"])).2.2 ≠ 0 →
      mainExitStatus ["somecmd"] (fun _ => ("", "", 2)) EngineOutcome.ok = 1) :=
  claim_C7_amended ["somecmd"] (fun _ => ("", "", 2)) EngineOutcome.ok (by decide)

/-- C9: the catalog advertised to each engine equals the enforcement data.  In
llm_debugger.py the assistant's `tools` literal carries exactly the descriptors
of `ALLOWED_FUNCTIONS` (so the duplicated literals have not drifted); in
ollama_debugger.py the advertised catalog is `ALLOWED_FUNCTIONS.values()`
itself, its names are exactly the keys the dispatch loop enforces through
`AVAILABLE_FUNCTIONS`, and the two files' registries are identical. -/
theorem claim_C9_advertised_equals_enforced :
    createAssistantTools.map AssistantTool.function
      = ALLOWED_FUNCTIONS.map Prod.snd ∧
    ollamaAdvertisedTools.map FunctionSchema.name = ollamaAvailableFunctionNames ∧
    (ollamaALLOWED_FUNCTIONS.map Prod.fst) = ollamaAvailableFunctionNames ∧
    ollamaALLOWED_FUNCTIONS = ALLOWED_FUNCTIONS :=
  ⟨rfl, rfl, rfl, rfl⟩

/-- C10: the poll/two-call variant appends, for every tool call of the batch —
allowed, not implemented or disallowed — exactly one history message of role
`tool` that carries only the response text and no call id, the i-th appended
message answering the i-th request: correlation is positional, never by id. -/
theorem claim_C10_tool_messages_positional (oracle : ToolOracle)
    (messages : List OllamaMessage) (tool_calls : List OllamaToolCall) :
    ∃ appended,
      ollama_process_tool_calls oracle messages tool_calls
        = messages ++ appended ∧
      appended.length = tool_calls.length ∧
      (∀ m ∈ appended, m.role = "tool" ∧ m.tool_call_id = none) ∧
      ∀ i : Nat, appended[i]?
        = tool_calls[i]?.map
            (fun tool =>
              { role := "tool", content := ollama_function_response oracle tool }) := by
  have key : ∀ (calls : List OllamaToolCall) (ms : List OllamaMessage),
      ollama_process_tool_calls oracle ms calls
        = ms ++ calls.map
            (fun tool =>
              { role := "tool"
                content := ollama_function_response oracle tool }) := by
    intro calls
    induction calls with
    | nil => intro ms; simp [ollama_process_tool_calls]
    | cons t rest ih =>
      intro ms
      simp only [ollama_process_tool_calls, List.foldl_cons] at ih ⊢
      rw [ih]
      simp
  refine ⟨_, key tool_calls messages, by simp, ?_, ?_⟩
  · intro m hm
    obtain ⟨tool, _, rfl⟩ := List.mem_map.mp hm
    exact ⟨rfl, rfl⟩
  · intro i
    simp [List.getElem?_map]
